import Mathlib

/-!
Verification of the ICEC backend's emissions-calculation and aggregation core.

The Python source (Django app `core`) is shallowly embedded here:
  * `EmissionFactor`, `ConsumptionRecord` mirror `core/models.py`;
  * Python floats are modelled as exact rationals (`ℚ`): the calculation is
    plain linear arithmetic and the source applies no rounding inside the
    calculator;
  * dates are modelled as day numbers since 1970-01-01 (`ℕ`), with the
    civil-calendar year/month extraction made explicit, so that Django's
    `date__year`, `date__month`, `TruncMonth` and `timedelta(days=365)`
    all have faithful meanings;
  * the database is a `DB` value, queryset operations become list
    operations, and SQL `Sum` / `GROUP BY` / `ORDER BY` become list folds,
    `dedup` and `insertionSort`.
-/

namespace ICEC

/-- A row of the `EmissionFactor` table (core/models.py lines 17-51).
Only the columns the calculator and the claims read are kept. -/
structure EmissionFactor where
  category : String
  sub_category : String
  factor : ℚ
  deriving DecidableEq, Repr

/-- The dict comprehension
`{ef.sub_category: ef.factor for ef in EmissionFactor.objects.all()}`
of core/models.py line 93: keyed by `sub_category` only, later rows
overwrite earlier ones. -/
def factorDict (efs : List EmissionFactor) : String → Option ℚ :=
  efs.foldl (fun d ef => fun k => if k = ef.sub_category then some ef.factor else d k)
    (fun _ => none)

/-- The six raw consumption quantities of a `ConsumptionRecord`
(core/models.py lines 70-75). -/
structure Raw where
  electricity_kwh : ℚ
  diesel_liters : ℚ
  petrol_liters : ℚ
  lpg_kg : ℚ
  water_kl : ℚ
  waste_kg : ℚ
  deriving DecidableEq, Repr

/-- The five derived emission quantities of a `ConsumptionRecord`
(core/models.py lines 78-82). -/
structure Derived where
  electricity_emissions : ℚ
  fuel_emissions : ℚ
  water_emissions : ℚ
  waste_emissions : ℚ
  total_emissions : ℚ
  deriving DecidableEq, Repr

/-- `ConsumptionRecord.calculate_emissions` (core/models.py lines 91-119),
as a pure function of the raw quantities and the factor dict.
`factors.get(k, default)` becomes `(factors k).getD default`. -/
def calculate_emissions (raw : Raw) (factors : String → Option ℚ) : Derived :=
  let electricity := raw.electricity_kwh * (factors "GRID").getD (82/100)
  let fuel :=
    raw.diesel_liters * (factors "DIESEL").getD (268/100) +
    raw.petrol_liters * (factors "PETROL").getD (231/100) +
    raw.lpg_kg * (factors "LPG").getD (298/100)
  let water := raw.water_kl * (factors "MUNICIPAL_WATER").getD (344/1000)
  let waste := raw.waste_kg * (factors "GENERAL_WASTE").getD (58/100)
  { electricity_emissions := electricity
    fuel_emissions := fuel
    water_emissions := water
    waste_emissions := waste
    total_emissions := electricity + fuel + water + waste }

/-- The factor rows seeded by
`core/management/commands/seed_emission_factors.py` (lines 12-100),
in the order the command writes them. -/
def seedFactors : List EmissionFactor :=
  [⟨"ELECTRICITY", "GRID", 82/100⟩,
   ⟨"FUEL", "DIESEL", 268/100⟩,
   ⟨"FUEL", "PETROL", 231/100⟩,
   ⟨"FUEL", "LPG", 298/100⟩,
   ⟨"FUEL", "CNG", 275/100⟩,
   ⟨"WATER", "MUNICIPAL_WATER", 344/1000⟩,
   ⟨"WASTE", "ORGANIC_WASTE", 58/100⟩,
   ⟨"WASTE", "PLASTIC_WASTE", 6⟩,
   ⟨"WASTE", "E_WASTE", 2⟩,
   ⟨"WASTE", "GENERAL_WASTE", 58/100⟩]

/-- A persisted `ConsumptionRecord` row (core/models.py lines 54-89).
The institute foreign key is its username, the date is a day number
since 1970-01-01. -/
structure ConsumptionRecord where
  institute : String
  department : String
  date : ℕ
  raw : Raw
  derived : Derived
  deriving DecidableEq, Repr

/-- `ConsumptionRecord.save` (core/models.py lines 121-123): recompute the
five derived fields with `calculate_emissions`, then persist; whatever was
in the derived fields before the save is overwritten. -/
def modelSave (factors : String → Option ℚ) (r : ConsumptionRecord) : ConsumptionRecord :=
  { r with derived := calculate_emissions r.raw factors }

/-- The department enum (core/models.py lines 57-63). -/
def departmentChoices : List String :=
  ["HOSTEL", "CANTEEN", "ADMIN", "LABS", "TRANSPORT"]

/-- The whole persistent store: the `EmissionFactor` table and the
`ConsumptionRecord` table. -/
structure DB where
  factors : List EmissionFactor
  records : List ConsumptionRecord
  deriving DecidableEq, Repr

/-- The body of a create/update request as the serializer sees it
(core/serializers.py lines 52-70): department, date, the six raw
quantities, and whatever the client wrote into the five derived fields
(which are in `read_only_fields` and therefore never read). -/
structure RecordInput where
  department : String
  date : ℕ
  raw : Raw
  submitted : Derived
  deriving DecidableEq, Repr

/-- Whether the store already holds a row with this
(institute, department, date) key (`unique_together`, core/models.py
line 89). -/
def hasTriple (records : List ConsumptionRecord) (user department : String) (date : ℕ) : Bool :=
  records.any fun r => r.institute == user && r.department == department && r.date == date

/-- POST /consumption/: `ConsumptionRecordSerializer` validation
(the department must be a declared choice; no constraint whatsoever on
the signs of the six float quantities), then `serializer.create`
(core/serializers.py lines 68-70) attaches the requesting institute,
and `ConsumptionRecord.save` computes the derived fields before the row
is inserted; the `unique_together` constraint rejects a duplicate
(institute, department, date) key. -/
def createRecord (db : DB) (user : String) (inp : RecordInput) : Except String DB :=
  if inp.department ∈ departmentChoices then
    if hasTriple db.records user inp.department inp.date then
      Except.error "conflict: duplicate (institute, department, date)"
    else
      Except.ok { db with
        records := db.records ++
          [modelSave (factorDict db.factors)
            { institute := user, department := inp.department, date := inp.date,
              raw := inp.raw, derived := ⟨0, 0, 0, 0, 0⟩ }] }
  else Except.error "validation: unknown department"

/-- The record list after an update of the record keyed by
(user, department, date): that record gets the new raw quantities and is
re-saved (recomputing its derived fields with the factor table as it
stands now); every other record is untouched. -/
def updatedRecords (db : DB) (user department : String) (date : ℕ) (newRaw : Raw) :
    List ConsumptionRecord :=
  db.records.map fun r =>
    if r.institute == user && r.department == department && r.date == date then
      modelSave (factorDict db.factors) { r with raw := newRaw }
    else r

/-- PUT /consumption/{id}/ on the record keyed by
(user, department, date): replace the raw quantities and re-run
`ConsumptionRecord.save`. -/
def updateRecord (db : DB) (user department : String) (date : ℕ) (newRaw : Raw) :
    Except String DB :=
  if hasTriple db.records user department date then
    Except.ok { db with records := updatedRecords db user department date newRaw }
  else Except.error "not found"

/-- An administrator edits the value of the emission factor identified by
(category, sub_category); nothing else in the store is touched. -/
def setFactorValue (db : DB) (category sub : String) (v : ℚ) : DB :=
  { db with
    factors := db.factors.map fun ef =>
      if ef.category == category && ef.sub_category == sub then { ef with factor := v }
      else ef }

/-- Convert a day number since 1970-01-01 into (year, month, day) of the
proleptic Gregorian calendar (the calendar of Python `datetime.date`). -/
def civilFromDays (z0 : ℕ) : ℕ × ℕ × ℕ :=
  let z := z0 + 719468
  let era := z / 146097
  let doe := z % 146097
  let yoe := (doe - doe / 1460 + doe / 36524 - doe / 146096) / 365
  let y := yoe + era * 400
  let doy := doe - (365 * yoe + yoe / 4 - yoe / 100)
  let mp := (5 * doy + 2) / 153
  let d := doy - (153 * mp + 2) / 5 + 1
  let m := if mp < 10 then mp + 3 else mp - 9
  (if m ≤ 2 then y + 1 else y, m, d)

/-- The `date__year` of a stored date. -/
def dateYear (d : ℕ) : ℕ := (civilFromDays d).1

/-- The `date__month` of a stored date. -/
def dateMonth (d : ℕ) : ℕ := (civilFromDays d).2.1

/-- `TruncMonth('date')` as a sortable key: months since year 0
(the truncated month dates of the source compare exactly like this key). -/
def monthIdx (d : ℕ) : ℕ := dateYear d * 12 + (dateMonth d - 1)

/-- Python `round(x, 2)` at the aggregation boundary
(rounding of exact rationals to 2 decimal places). -/
def round2 (q : ℚ) : ℚ := (round (q * 100) : ℤ) / 100

/-- SQL `Sum` of one field over a record set; an empty set sums to 0,
exactly as the views replace SQL NULL by `or 0`. -/
def sumBy (f : ConsumptionRecord → ℚ) (rs : List ConsumptionRecord) : ℚ :=
  (rs.map f).sum

/-- One row of the monthly trend (core/views.py lines 124-134), keyed by
its calendar month. -/
structure TrendEntry where
  month : ℕ
  total_emissions : ℚ
  electricity_emissions : ℚ
  fuel_emissions : ℚ
  water_emissions : ℚ
  waste_emissions : ℚ
  deriving DecidableEq, Repr

/-- The payload of GET /dashboard/stats/ (core/views.py lines 136-145). -/
structure Stats where
  total_emissions : ℚ
  electricity_emissions : ℚ
  fuel_emissions : ℚ
  water_emissions : ℚ
  waste_emissions : ℚ
  department_breakdown : List (String × ℚ)
  monthly_trend : List TrendEntry
  record_count : ℕ
  deriving DecidableEq, Repr

/-- `records.values('department').annotate(total=Sum('total_emissions')).order_by('department')`
(core/views.py lines 98-105): the distinct departments of the record set,
sorted ascending by code, each with its rounded sum of `total_emissions`. -/
def departmentBreakdown (rs : List ConsumptionRecord) : List (String × ℚ) :=
  (List.insertionSort (· ≤ ·) ((rs.map fun r => r.department).dedup)).map fun d =>
    (d, round2 (sumBy (fun r => r.derived.total_emissions)
      (rs.filter fun r => r.department == d)))

/-- The `GROUP BY TruncMonth(date) ... ORDER BY month` aggregation applied
to a record set (core/views.py lines 109-134): the distinct months, sorted
ascending, each with the rounded sums of the five emission fields over the
records of that month. -/
def monthlyTrendOfList (rs : List ConsumptionRecord) : List TrendEntry :=
  (List.insertionSort (· ≤ ·) ((rs.map fun r => monthIdx r.date).dedup)).map fun k =>
    let ms := rs.filter fun r => monthIdx r.date == k
    { month := k
      total_emissions := round2 (sumBy (fun r => r.derived.total_emissions) ms)
      electricity_emissions := round2 (sumBy (fun r => r.derived.electricity_emissions) ms)
      fuel_emissions := round2 (sumBy (fun r => r.derived.fuel_emissions) ms)
      water_emissions := round2 (sumBy (fun r => r.derived.water_emissions) ms)
      waste_emissions := round2 (sumBy (fun r => r.derived.waste_emissions) ms) }

/-- The filter chain of core/views.py lines 77-86: the requesting
institute's records, narrowed by the optional `year` and then the optional
`month` query parameter. -/
def filteredRecords (db : DB) (user : String) (year month : Option ℕ) :
    List ConsumptionRecord :=
  let records := db.records.filter fun r => r.institute == user
  let records :=
    match year with
    | some y => records.filter fun r => dateYear r.date == y
    | none => records
  match month with
  | some m => records.filter fun r => dateMonth r.date == m
  | none => records

/-- The record set feeding the monthly trend (core/views.py lines 108-111):
`ConsumptionRecord.objects.filter(institute=request.user, date__gte=twelve_months_ago)`
with `twelve_months_ago = timezone.now().date() - timedelta(days=365)`.
Note this queries the full table again: the `year`/`month` query
parameters are not applied here. -/
def windowRecords (db : DB) (user : String) (now : ℕ) : List ConsumptionRecord :=
  db.records.filter fun r => r.institute == user && decide (now - 365 ≤ r.date)

/-- `DashboardStatsView.get` (core/views.py lines 76-145); `now` is the
day number of `timezone.now().date()`. -/
def dashboardStats (db : DB) (user : String) (year month : Option ℕ) (now : ℕ) : Stats :=
  let records := filteredRecords db user year month
  { total_emissions := round2 (sumBy (fun r => r.derived.total_emissions) records)
    electricity_emissions := round2 (sumBy (fun r => r.derived.electricity_emissions) records)
    fuel_emissions := round2 (sumBy (fun r => r.derived.fuel_emissions) records)
    water_emissions := round2 (sumBy (fun r => r.derived.water_emissions) records)
    waste_emissions := round2 (sumBy (fun r => r.derived.waste_emissions) records)
    department_breakdown := departmentBreakdown records
    monthly_trend := monthlyTrendOfList (windowRecords db user now)
    record_count := records.length }

/-- The calculator as section 4.1 of the specification words it: each
component is the raw quantity times `factor(sub_category)`, the lookup
falling back to the hardcoded defaults GRID=0.82, DIESEL=2.68,
PETROL=2.31, LPG=2.98, MUNICIPAL_WATER=0.344, GENERAL_WASTE=0.58, and
total is the sum of the four components. Written from the specification
for comparison with `calculate_emissions`. -/
def computeSpec (raw : Raw) (factors : String → Option ℚ) : Derived :=
  { electricity_emissions := raw.electricity_kwh * (factors "GRID").getD (82/100)
    fuel_emissions :=
      raw.diesel_liters * (factors "DIESEL").getD (268/100) +
      raw.petrol_liters * (factors "PETROL").getD (231/100) +
      raw.lpg_kg * (factors "LPG").getD (298/100)
    water_emissions := raw.water_kl * (factors "MUNICIPAL_WATER").getD (344/1000)
    waste_emissions := raw.waste_kg * (factors "GENERAL_WASTE").getD (58/100)
    total_emissions :=
      raw.electricity_kwh * (factors "GRID").getD (82/100) +
      (raw.diesel_liters * (factors "DIESEL").getD (268/100) +
       raw.petrol_liters * (factors "PETROL").getD (231/100) +
       raw.lpg_kg * (factors "LPG").getD (298/100)) +
      raw.water_kl * (factors "MUNICIPAL_WATER").getD (344/1000) +
      raw.waste_kg * (factors "GENERAL_WASTE").getD (58/100) }

/-- C1: every save (create or update) computes the derived fields by the
spec formulas — electricity, fuel, water and waste are the raw quantities
times the looked-up factors, total is their sum, and an absent sub-category
falls back to the hardcoded default, so the calculation never fails for
missing reference data: `calculate_emissions` (the source calculator, run
by `ConsumptionRecord.save` on every create and update) coincides with
`computeSpec` (the formulas as the specification words them). -/
theorem c1_calculator_matches_spec (factors : String → Option ℚ) (raw : Raw)
    (r : ConsumptionRecord) :
    calculate_emissions raw factors = computeSpec raw factors ∧
    (modelSave factors r).derived = computeSpec r.raw factors :=
  ⟨rfl, rfl⟩

/-- C3: on raw = (100 kWh, 10 L diesel, 5 L petrol, 2 kg LPG, 3 kL water,
20 kg waste) with the default factors — whether the seeded factor table or
the hardcoded fallbacks of an empty table — the calculator returns
electricity 82.0, fuel 44.31, water 1.032, waste 11.6, total 138.942. -/
theorem c3_worked_example :
    calculate_emissions ⟨100, 10, 5, 2, 3, 20⟩ (factorDict seedFactors) =
      ⟨82, 4431/100, 1032/1000, 116/10, 138942/1000⟩ ∧
    calculate_emissions ⟨100, 10, 5, 2, 3, 20⟩ (factorDict []) =
      ⟨82, 4431/100, 1032/1000, 116/10, 138942/1000⟩ := by
  constructor <;>
    · simp [calculate_emissions, factorDict, seedFactors]
      norm_num

/-- C9: client-supplied values for the five derived fields are ignored.
The serializer never reads the submitted derived values (they are in
`read_only_fields`), so two requests differing only there produce the same
result; and `ConsumptionRecord.save` overwrites whatever derived values an
instance carries with the calculator's output on its raw quantities. -/
theorem c9_submitted_derived_ignored (factors : String → Option ℚ)
    (r : ConsumptionRecord) (d : Derived) (db : DB) (user : String)
    (inp : RecordInput) (d1 d2 : Derived) :
    modelSave factors { r with derived := d } = modelSave factors r ∧
    (modelSave factors r).derived = calculate_emissions r.raw factors ∧
    createRecord db user { inp with submitted := d1 } =
      createRecord db user { inp with submitted := d2 } :=
  ⟨rfl, rfl, rfl⟩

/-- C10: the calculator reads only the factors of GRID, DIESEL, PETROL,
LPG, MUNICIPAL_WATER and GENERAL_WASTE — two factor lookups that agree on
those six sub-categories give identical outputs on every raw input, no
matter how they differ elsewhere (CNG, the other waste rows, anything). -/
theorem c10_depends_only_on_six_factors (raw : Raw) (f1 f2 : String → Option ℚ)
    (hg : f1 "GRID" = f2 "GRID") (hd : f1 "DIESEL" = f2 "DIESEL")
    (hp : f1 "PETROL" = f2 "PETROL") (hl : f1 "LPG" = f2 "LPG")
    (hw : f1 "MUNICIPAL_WATER" = f2 "MUNICIPAL_WATER")
    (hs : f1 "GENERAL_WASTE" = f2 "GENERAL_WASTE") :
    calculate_emissions raw f1 = calculate_emissions raw f2 := by
  simp only [calculate_emissions, hg, hd, hp, hl, hw, hs]

/-- Witness for C10: the seeded table versus the seeded table with the CNG
factor edited to 99 — the lookups differ at CNG, yet the calculator's
output on the section-8 example is unchanged. -/
theorem c10_witness :
    factorDict seedFactors "CNG" ≠
      factorDict (setFactorValue ⟨seedFactors, []⟩ "FUEL" "CNG" 99).factors "CNG" ∧
    calculate_emissions ⟨100, 10, 5, 2, 3, 20⟩ (factorDict seedFactors) =
      calculate_emissions ⟨100, 10, 5, 2, 3, 20⟩
        (factorDict (setFactorValue ⟨seedFactors, []⟩ "FUEL" "CNG" 99).factors) := by
  refine ⟨?_, c10_depends_only_on_six_factors _ _ _ ?_ ?_ ?_ ?_ ?_ ?_⟩ <;>
    · simp [factorDict, seedFactors, setFactorValue]
      try norm_num

/-- C2: editing an emission factor's value leaves every stored record —
in particular its `total_emissions` — untouched (frozen snapshot), while
a record saved after the edit is computed from the edited table: with the
GRID factor changed from 0.82 to 1, a save of 100 kWh now stores 100 kg
CO2e of electricity emissions where it stored 82 before the change. -/
theorem c2_factor_change_frozen_snapshot :
    (∀ db category sub v, (setFactorValue db category sub v).records = db.records) ∧
    (modelSave (factorDict (setFactorValue ⟨seedFactors, []⟩ "ELECTRICITY" "GRID" 1).factors)
        ⟨"u", "HOSTEL", 19890, ⟨100, 0, 0, 0, 0, 0⟩, ⟨0, 0, 0, 0, 0⟩⟩).derived.electricity_emissions
      = 100 ∧
    (modelSave (factorDict seedFactors)
        ⟨"u", "HOSTEL", 19890, ⟨100, 0, 0, 0, 0, 0⟩, ⟨0, 0, 0, 0, 0⟩⟩).derived.electricity_emissions
      = 82 := by
  refine ⟨fun db category sub v => rfl, ?_, ?_⟩ <;>
    · simp [modelSave, calculate_emissions, factorDict, seedFactors, setFactorValue]
      try norm_num

/-- Store for the C4 counterexample: one institute with a single record
dated day 19890 (2024-06-16). -/
def c4db : DB :=
  ⟨seedFactors, [⟨"u", "HOSTEL", 19890, ⟨100, 0, 0, 0, 0, 0⟩, ⟨82, 0, 0, 0, 82⟩⟩]⟩

/-- C4 as stated is false: requesting stats with `year=2023` on day 19900
(2024-06-26) leaves the filtered set empty (the record is from 2024), yet
the returned monthly trend is not the trend of that filtered set — the
view recomputes the trend from the full table, ignoring the year filter. -/
theorem c4_counterexample :
    filteredRecords c4db "u" (some 2023) none = [] ∧
    (dashboardStats c4db "u" (some 2023) none 19900).record_count = 0 ∧
    (dashboardStats c4db "u" (some 2023) none 19900).monthly_trend ≠
      monthlyTrendOfList (filteredRecords c4db "u" (some 2023) none) := by
  refine ⟨?_, ?_, ?_⟩ <;>
    simp [c4db, dashboardStats, filteredRecords, windowRecords, monthlyTrendOfList,
      dateYear, dateMonth, monthIdx, civilFromDays]

/-- C4 corrected: the optional year and month filters do combine
conjunctively (AND) with the mandatory institute-ownership filter, and the
five emission sums, the per-department breakdown and record_count are all
computed over that filtered set — but the monthly trend is computed over
the institute's records of the trailing 365 days, ignoring the year and
month parameters. -/
theorem c4_components_of_stats (db : DB) (user : String) (y m now : ℕ) :
    (∀ r, r ∈ filteredRecords db user (some y) (some m) ↔
       r ∈ db.records ∧ r.institute = user ∧ dateYear r.date = y ∧ dateMonth r.date = m) ∧
    (∀ year month : Option ℕ,
       dashboardStats db user year month now =
         { total_emissions :=
             round2 (sumBy (fun r => r.derived.total_emissions) (filteredRecords db user year month))
           electricity_emissions :=
             round2 (sumBy (fun r => r.derived.electricity_emissions) (filteredRecords db user year month))
           fuel_emissions :=
             round2 (sumBy (fun r => r.derived.fuel_emissions) (filteredRecords db user year month))
           water_emissions :=
             round2 (sumBy (fun r => r.derived.water_emissions) (filteredRecords db user year month))
           waste_emissions :=
             round2 (sumBy (fun r => r.derived.waste_emissions) (filteredRecords db user year month))
           department_breakdown := departmentBreakdown (filteredRecords db user year month)
           monthly_trend := monthlyTrendOfList (windowRecords db user now)
           record_count := (filteredRecords db user year month).length }) := by
  constructor
  · intro r
    simp only [filteredRecords, List.mem_filter, Bool.and_eq_true, beq_iff_eq]
    tauto
  · intro year month
    rfl

/-- Store for the C8 counterexample: one institute with a single record
dated day 19990 (2024-09-24). -/
def c8db : DB :=
  ⟨seedFactors, [⟨"u", "CANTEEN", 19990, ⟨0, 0, 0, 0, 0, 10⟩, ⟨0, 0, 0, 0, 29/5⟩⟩]⟩

/-- C8 as stated is false: a stats request with `year=2022` on day 20000
has an empty filtered set (record_count is 0), yet the monthly trend is
not empty — the trend is built from the full table of the institute over
the trailing 365 days, not from the filtered set. -/
theorem c8_counterexample :
    filteredRecords c8db "u" (some 2022) none = [] ∧
    (dashboardStats c8db "u" (some 2022) none 20000).record_count = 0 ∧
    (dashboardStats c8db "u" (some 2022) none 20000).monthly_trend ≠ [] := by
  refine ⟨?_, ?_, ?_⟩ <;>
    simp [c8db, dashboardStats, filteredRecords, windowRecords, monthlyTrendOfList,
      dateYear, dateMonth, monthIdx, civilFromDays]

/-- C8 corrected: an empty filtered set is not an error — the five sums
are 0.00 (the rounded sum of nothing, never null), the department
breakdown is empty and record_count is 0; the monthly trend, however, is
only empty when the institute also has no records in the trailing 365
days (in particular whenever the institute has no records at all). -/
theorem c8_empty_filtered_set (db : DB) (user : String) (year month : Option ℕ)
    (now : ℕ) (h : filteredRecords db user year month = []) :
    (dashboardStats db user year month now).total_emissions = 0 ∧
    (dashboardStats db user year month now).electricity_emissions = 0 ∧
    (dashboardStats db user year month now).fuel_emissions = 0 ∧
    (dashboardStats db user year month now).water_emissions = 0 ∧
    (dashboardStats db user year month now).waste_emissions = 0 ∧
    (dashboardStats db user year month now).department_breakdown = [] ∧
    (dashboardStats db user year month now).record_count = 0 ∧
    (windowRecords db user now = [] →
      (dashboardStats db user year month now).monthly_trend = []) := by
  refine ⟨?_, ?_, ?_, ?_, ?_, ?_, ?_, ?_⟩
  case _ => simp [dashboardStats, h, sumBy, round2]
  case _ => simp [dashboardStats, h, sumBy, round2]
  case _ => simp [dashboardStats, h, sumBy, round2]
  case _ => simp [dashboardStats, h, sumBy, round2]
  case _ => simp [dashboardStats, h, sumBy, round2]
  case _ => simp [dashboardStats, h, departmentBreakdown]
  case _ => simp [dashboardStats, h]
  case _ =>
    intro hw
    simp [dashboardStats, hw, monthlyTrendOfList]

/-- Witness for C8 (corrected): an institute with no records at all gets
all-zero stats, empty breakdown, empty trend and record_count 0. -/
theorem c8_witness :
    (dashboardStats ⟨seedFactors, []⟩ "u" none none 19900).total_emissions = 0 ∧
    (dashboardStats ⟨seedFactors, []⟩ "u" none none 19900).department_breakdown = [] ∧
    (dashboardStats ⟨seedFactors, []⟩ "u" none none 19900).record_count = 0 ∧
    (dashboardStats ⟨seedFactors, []⟩ "u" none none 19900).monthly_trend = [] := by
  have h := c8_empty_filtered_set ⟨seedFactors, []⟩ "u" none none 19900 rfl
  exact ⟨h.1, h.2.2.2.2.2.1, h.2.2.2.2.2.2.1, h.2.2.2.2.2.2.2 rfl⟩

/-- The months column of a computed trend is exactly the ascending sorted
list of the distinct months of the record set it is computed from. -/
theorem trend_months_eq (rs : List ConsumptionRecord) :
    (monthlyTrendOfList rs).map TrendEntry.month =
      List.insertionSort (· ≤ ·) ((rs.map fun r => monthIdx r.date).dedup) := by
  simp only [monthlyTrendOfList, List.map_map]
  generalize List.insertionSort (· ≤ ·) ((rs.map fun r => monthIdx r.date).dedup) = ks
  induction ks with
  | nil => rfl
  | cons k ks ih => simpa using ih

/-- C5: the monthly trend of the dashboard contains one entry per calendar
month that has at least one record of the institute inside the trailing
365 days, in strictly ascending month order; months without records are
simply absent; a record dated 400 days before evaluation time is excluded
from the trend's record window, one dated 10 days before is included and
its month appears in the trend. -/
theorem c5_trend_trailing_window (db : DB) (user : String)
    (year month : Option ℕ) (now : ℕ) :
    ((dashboardStats db user year month now).monthly_trend.map TrendEntry.month).Sorted
      (· < ·) ∧
    (∀ e ∈ (dashboardStats db user year month now).monthly_trend,
       ∃ r ∈ windowRecords db user now, monthIdx r.date = e.month) ∧
    (∀ r ∈ db.records, r.institute = user → r.date + 400 = now →
       r ∉ windowRecords db user now) ∧
    (∀ r ∈ db.records, r.institute = user → r.date + 10 = now →
       r ∈ windowRecords db user now ∧
       monthIdx r.date ∈
         (dashboardStats db user year month now).monthly_trend.map TrendEntry.month) := by
  have htrend : (dashboardStats db user year month now).monthly_trend
      = monthlyTrendOfList (windowRecords db user now) := rfl
  have hmonths := trend_months_eq (windowRecords db user now)
  refine ⟨?_, ?_, ?_, ?_⟩
  · rw [htrend, hmonths]
    exact (List.sorted_insertionSort _ _).lt_of_le
      ((List.perm_insertionSort _ _).nodup_iff.mpr (List.nodup_dedup _))
  · intro e he
    rw [htrend] at he
    simp only [monthlyTrendOfList, List.mem_map] at he
    obtain ⟨k, hk, rfl⟩ := he
    have hk2 : k ∈ ((windowRecords db user now).map fun r => monthIdx r.date).dedup :=
      (List.perm_insertionSort _ _).mem_iff.mp hk
    rw [List.mem_dedup] at hk2
    obtain ⟨r, hr, hrk⟩ := List.mem_map.mp hk2
    exact ⟨r, hr, hrk⟩
  · intro r hr hinst hdate hmem
    simp only [windowRecords, List.mem_filter, Bool.and_eq_true, beq_iff_eq,
      decide_eq_true_eq] at hmem
    obtain ⟨-, -, hle⟩ := hmem
    omega
  · intro r hr hinst hdate
    have hrw : r ∈ windowRecords db user now := by
      simp only [windowRecords, List.mem_filter, Bool.and_eq_true, beq_iff_eq,
        decide_eq_true_eq]
      exact ⟨hr, hinst, by omega⟩
    refine ⟨hrw, ?_⟩
    rw [htrend, hmonths, (List.perm_insertionSort _ _).mem_iff, List.mem_dedup]
    exact List.mem_map.mpr ⟨r, hrw, rfl⟩

/-- Store for the C5 witness: one record 10 days before evaluation time
(day 19890, June 2024) and one 400 days before (day 19500, May 2023). -/
def c5db : DB :=
  ⟨seedFactors,
   [⟨"u", "HOSTEL", 19890, ⟨100, 0, 0, 0, 0, 0⟩, ⟨82, 0, 0, 0, 82⟩⟩,
    ⟨"u", "LABS", 19500, ⟨50, 0, 0, 0, 0, 0⟩, ⟨41, 0, 0, 0, 41⟩⟩]⟩

/-- Witness for C5 at `c5db` on day 19900: the month of the 400-day-old
record (May 2023, index 24280) is absent and only June 2024 (index 24293)
appears in the trend. -/
theorem c5_witness :
    (((dashboardStats c5db "u" none none 19900).monthly_trend.map TrendEntry.month).Sorted
      (· < ·) ∧
     (∀ e ∈ (dashboardStats c5db "u" none none 19900).monthly_trend,
        ∃ r ∈ windowRecords c5db "u" 19900, monthIdx r.date = e.month) ∧
     (∀ r ∈ c5db.records, r.institute = "u" → r.date + 400 = 19900 →
        r ∉ windowRecords c5db "u" 19900) ∧
     (∀ r ∈ c5db.records, r.institute = "u" → r.date + 10 = 19900 →
        r ∈ windowRecords c5db "u" 19900 ∧
        monthIdx r.date ∈
          (dashboardStats c5db "u" none none 19900).monthly_trend.map TrendEntry.month)) ∧
    (dashboardStats c5db "u" none none 19900).monthly_trend.map TrendEntry.month = [24293] := by
  refine ⟨c5_trend_trailing_window c5db "u" none none 19900, ?_⟩
  simp [c5db, dashboardStats, windowRecords, monthlyTrendOfList, monthIdx,
    dateYear, dateMonth, civilFromDays]

/-- The request of the C6 counterexample: department HOSTEL, day 19890,
negative electricity and diesel quantities. -/
def negInput : RecordInput := ⟨"HOSTEL", 19890, ⟨-5, -1, 0, 0, 0, 0⟩, ⟨0, 0, 0, 0, 0⟩⟩

/-- C6 as stated is false: neither the serializer nor the model validates
the sign of the six quantities, so a create with negative electricity and
diesel succeeds — the store gains a record whose raw fields are negative
and whose derived fields are computed from them (−4.1 kg CO2e electricity,
−2.68 fuel, −6.78 total). -/
theorem c6_counterexample :
    negInput.raw.electricity_kwh < 0 ∧
    createRecord ⟨seedFactors, []⟩ "u" negInput =
      Except.ok ⟨seedFactors,
        [⟨"u", "HOSTEL", 19890, ⟨-5, -1, 0, 0, 0, 0⟩,
          ⟨-41/10, -268/100, 0, 0, -678/100⟩⟩]⟩ := by
  constructor
  · norm_num [negInput]
  · simp [createRecord, negInput, hasTriple, departmentChoices, modelSave,
      calculate_emissions, factorDict, seedFactors]
    norm_num

/-- C6 corrected: the write path performs no non-negativity validation —
every create whose department is a declared choice and whose
(institute, department, date) key is fresh succeeds, negative quantities
included, and the stored derived fields are the calculator's output on
those quantities as submitted. -/
theorem c6_create_ignores_sign (db : DB) (user : String) (inp : RecordInput)
    (hd : inp.department ∈ departmentChoices)
    (hf : hasTriple db.records user inp.department inp.date = false) :
    createRecord db user inp =
      Except.ok { db with records := db.records ++
        [modelSave (factorDict db.factors)
          { institute := user, department := inp.department, date := inp.date,
            raw := inp.raw, derived := ⟨0, 0, 0, 0, 0⟩ }] } := by
  simp [createRecord, hd, hf]

/-- Witness for C6 (corrected): a create with −3 litres of petrol on an
empty store succeeds. -/
theorem c6_witness :
    ((-3 : ℚ) < 0) ∧
    createRecord ⟨[], []⟩ "u" ⟨"LABS", 20000, ⟨0, 0, -3, 0, 0, 0⟩, ⟨0, 0, 0, 0, 0⟩⟩ =
      Except.ok { DB.mk [] [] with records := ([] : List ConsumptionRecord) ++
        [modelSave (factorDict [])
          { institute := "u", department := "LABS", date := 20000,
            raw := ⟨0, 0, -3, 0, 0, 0⟩, derived := ⟨0, 0, 0, 0, 0⟩ }] } :=
  ⟨by norm_num,
   c6_create_ignores_sign ⟨[], []⟩ "u" ⟨"LABS", 20000, ⟨0, 0, -3, 0, 0, 0⟩, ⟨0, 0, 0, 0, 0⟩⟩
     (by simp [departmentChoices]) rfl⟩

/-- C7: creating a second record with an existing (institute, department,
date) key fails with the uniqueness conflict — no store is produced, so
the existing record is untouched — while an update addressed to that key
succeeds and the stored derived fields of the addressed record are
recomputed from the new raw quantities and the current factor table. -/
theorem c7_conflict_and_update (db : DB) (user : String) (inp : RecordInput)
    (department : String) (date : ℕ) (newRaw : Raw)
    (hd : inp.department ∈ departmentChoices)
    (hdup : hasTriple db.records user inp.department inp.date = true)
    (hex : hasTriple db.records user department date = true) :
    createRecord db user inp =
      Except.error "conflict: duplicate (institute, department, date)" ∧
    updateRecord db user department date newRaw =
      Except.ok { db with records := updatedRecords db user department date newRaw } ∧
    ∀ r ∈ updatedRecords db user department date newRaw,
      r.institute = user → r.department = department → r.date = date →
      r.derived = calculate_emissions newRaw (factorDict db.factors) := by
  refine ⟨by simp [createRecord, hd, hdup], by simp [updateRecord, hex], ?_⟩
  intro r hr hinst hdept hdate
  simp only [updatedRecords] at hr
  obtain ⟨a, ha, rfl⟩ := List.mem_map.mp hr
  by_cases hc : (a.institute == user && a.department == department && a.date == date) = true
  · rw [if_pos hc]
    rfl
  · rw [if_neg hc] at hinst hdept hdate ⊢
    exact absurd (by simp [hinst, hdept, hdate]) hc

/-- Store for the C7 witness: one record for (u, HOSTEL, day 19890). -/
def c7db : DB :=
  ⟨seedFactors, [⟨"u", "HOSTEL", 19890, ⟨100, 0, 0, 0, 0, 0⟩, ⟨82, 0, 0, 0, 82⟩⟩]⟩

/-- Witness for C7 at `c7db`: the duplicate create for (u, HOSTEL, 19890)
fails with the conflict error, and the update of that key succeeds with
the derived fields recomputed. -/
theorem c7_witness :
    createRecord c7db "u" ⟨"HOSTEL", 19890, ⟨1, 2, 3, 4, 5, 6⟩, ⟨9, 9, 9, 9, 9⟩⟩ =
      Except.error "conflict: duplicate (institute, department, date)" ∧
    updateRecord c7db "u" "HOSTEL" 19890 ⟨1, 0, 0, 0, 0, 0⟩ =
      Except.ok { c7db with records := updatedRecords c7db "u" "HOSTEL" 19890 ⟨1, 0, 0, 0, 0, 0⟩ } ∧
    ∀ r ∈ updatedRecords c7db "u" "HOSTEL" 19890 ⟨1, 0, 0, 0, 0, 0⟩,
      r.institute = "u" → r.department = "HOSTEL" → r.date = 19890 →
      r.derived = calculate_emissions ⟨1, 0, 0, 0, 0, 0⟩ (factorDict c7db.factors) :=
  c7_conflict_and_update c7db "u" ⟨"HOSTEL", 19890, ⟨1, 2, 3, 4, 5, 6⟩, ⟨9, 9, 9, 9, 9⟩⟩
    "HOSTEL" 19890 ⟨1, 0, 0, 0, 0, 0⟩
    (by simp [departmentChoices]) (by simp [hasTriple, c7db]) (by simp [hasTriple, c7db])

end ICEC
